import Mathlib

/-
Verification of the ts-optionals repository (hanssell-the-fox/ts-optionals).

The repository contains two drafts of the optional container plus a Result
container:

* Draft A, the CONSUMING optional container (class `Option` in src/option.ts,
  re-exported through src/option_helpers.ts).  Its private field `#value`
  holds either the payload or the unique sentinel symbol `none`
  (src/_types.ts), and the getter `unwrap` mutates the field back to `none`
  after a successful read.  Because instances are mutable and identity
  matters (map / flatten return `this` in some branches), draft A is
  embedded with an explicit store: an instance is an address into a list of
  current `#value` fields.

* Draft B, the variant-based immutable containers (option/option.ts and
  result/result.ts).  Their `variant` field is `private readonly` and no
  method assigns anything, so they are embedded as plain inductive values.

JavaScript numbers are modelled as integers and strings as Lean strings;
the claims under verification only use such values.
-/

namespace TsOptionals

/-- Errors thrown by the library: `ReferenceError` (consuming draft) and
`TypeError` (variant draft). -/
inductive JSError : Type where
  | referenceError (msg : String)
  | typeError (msg : String)
  deriving DecidableEq

namespace COption

/-- Runtime values that can sit in the `#value` field of the consuming
`Option` class: the JS primitives the claims use, the unique `none` symbol
from src/_types.ts, and references to other `Option` instances (payloads of
nested options, needed by `flatten`). -/
inductive JSVal : Type where
  | vNull
  | vUndef
  | vBool (b : Bool)
  | vNum (n : Int)
  | vStr (s : String)
  | vNoneSym
  | vOpt (addr : Nat)
  deriving DecidableEq

/-- JavaScript falsiness (`!value`): `null`, `undefined`, `false`, `0` and
the empty string are falsy; symbols and objects are truthy. -/
def jsFalsy : JSVal → Bool
  | .vNull => true
  | .vUndef => true
  | .vBool b => !b
  | .vNum n => n == 0
  | .vStr s => s == ""
  | .vNoneSym => false
  | .vOpt _ => false

/-- The store of allocated consuming `Option` instances: position `a` holds
the current `#value` field of instance `a`. -/
abbrev Store : Type := List JSVal

/-- Read the `#value` field of instance `a` (out-of-range addresses never
occur for instances produced by the factories). -/
def lookup (σ : Store) (a : Nat) : JSVal := σ.getD a .vNoneSym

/-- Overwrite the `#value` field of instance `a`. -/
def update (σ : Store) (a : Nat) (v : JSVal) : Store := σ.set a v

/-- Allocate a fresh instance whose `#value` field is `v`. -/
def alloc (σ : Store) (v : JSVal) : Nat × Store := (σ.length, σ ++ [v])

/-- `private constructor(value?) { this.#value = value ?? none; }` — the
nullish coalescing `??` turns `null` and `undefined` into the `none`
symbol. -/
def mkOption (σ : Store) (v : JSVal) : Nat × Store :=
  alloc σ (if v = .vNull ∨ v = .vUndef then .vNoneSym else v)

/-- `static None(): Option<never> { return new Option<never>(none); }` -/
def None (σ : Store) : Nat × Store := mkOption σ .vNoneSym

/-- `static Some<U>(value?)`:
`(!value || value === null || value === undefined || value === none)
  ? new Option<never>(none) : new Option<NonNullable<U>>(value)`.
Note that the `!value` test rejects every falsy value, not only the
nullable sentinels. -/
def Some (σ : Store) (v : JSVal) : Nat × Store :=
  if jsFalsy v || v == .vNoneSym then mkOption σ .vNoneSym else mkOption σ v

/-- `get isNone(): boolean { return this.#value === none; }` -/
def isNone (σ : Store) (a : Nat) : Bool := lookup σ a == .vNoneSym

/-- `get isSome(): boolean { return this.#value !== none; }` -/
def isSome (σ : Store) (a : Nat) : Bool := lookup σ a != .vNoneSym

/-- `get peek(): Readonly<T> { return this.#value as T; }` -/
def peek (σ : Store) (a : Nat) : JSVal := lookup σ a

/-- `get unwrap()`:
`if (this.isNone) throw new ReferenceError("Unwrap called on a None value");
 const value = this.#value; this.#value = none; return value;`
A success returns the payload together with the mutated store. -/
def unwrap (σ : Store) (a : Nat) : Except JSError (JSVal × Store) :=
  if isNone σ a then .error (.referenceError "Unwrap called on a None value")
  else .ok (lookup σ a, update σ a .vNoneSym)

/-- `expect(message)`:
`if (this.isNone) throw new ReferenceError(message); return this.unwrap;` -/
def expect (σ : Store) (a : Nat) (message : String) :
    Except JSError (JSVal × Store) :=
  if isNone σ a then .error (.referenceError message)
  else unwrap σ a

/-- `unwrapOr(thisValue)`: `return this.isSome ? this.unwrap : thisValue;`
Guarded by `isSome`, the `unwrap` getter cannot throw here; it returns the
payload and drains the field. -/
def unwrapOr (σ : Store) (a : Nat) (d : JSVal) : JSVal × Store :=
  if isSome σ a then (lookup σ a, update σ a .vNoneSym) else (d, σ)

/-- `map(fn)`: `return this.isSome ? Option.Some(fn(this.#value as T)) : this;`
The Some branch reads `#value` directly (it peeks, no consumption) and wraps
the mapped value through the `Some` factory; the None branch returns the
current instance. -/
def map (σ : Store) (a : Nat) (f : JSVal → JSVal) : Nat × Store :=
  if isSome σ a then Some σ (f (lookup σ a)) else (a, σ)

/-- The `this.#value instanceof Option` test: the address of the payload
when the payload is itself an `Option` instance. -/
def valueAddr : JSVal → Option Nat
  | .vOpt b => some b
  | _ => none

/-- `flatten()`:
`return this.isSome && this.#value instanceof Option
   ? this.#value.flatten() : this;`
The source recursion is unbounded; it is embedded with explicit fuel.  A
chain of distinct instances in a store of size `n` has at most `n` links,
so fuel `σ.length` (used by `flatten` below) reaches the fixpoint on every
store the factories can build. -/
def flattenAux (σ : Store) : Nat → Nat → Nat
  | 0, a => a
  | fuel + 1, a =>
    if isSome σ a then
      match valueAddr (lookup σ a) with
      | some b => flattenAux σ fuel b
      | none => a
    else a

/-- `flatten()` on instance `a`; no store mutation happens. -/
def flatten (σ : Store) (a : Nat) : Nat := flattenAux σ σ.length a

/-- `or(other)`: `return this.isSome ? this : other;` -/
def orElse (σ : Store) (a : Nat) (b : Nat) : Nat :=
  if isSome σ a then a else b

theorem lookup_nil (a : Nat) : lookup [] a = JSVal.vNoneSym := by
  cases a <;> rfl

theorem lookup_cons_zero (x : JSVal) (σ : Store) : lookup (x :: σ) 0 = x := rfl

theorem lookup_cons_succ (x : JSVal) (σ : Store) (a : Nat) :
    lookup (x :: σ) (a + 1) = lookup σ a := rfl

theorem lookup_append_self (σ : Store) (v : JSVal) :
    lookup (σ ++ [v]) σ.length = v := by
  induction σ with
  | nil => rfl
  | cons x σ ih => simpa [lookup_cons_succ] using ih

theorem lookup_set_self (σ : Store) (a : Nat) (v : JSVal) (h : a < σ.length) :
    lookup (update σ a v) a = v := by
  induction σ generalizing a with
  | nil => exact absurd h (Nat.not_lt_zero a)
  | cons x σ ih =>
    cases a with
    | zero => rfl
    | succ a => exact ih a (Nat.lt_of_succ_lt_succ h)

theorem lookup_default_of_le (σ : Store) (a : Nat) (h : σ.length ≤ a) :
    lookup σ a = JSVal.vNoneSym := by
  induction σ generalizing a with
  | nil => exact lookup_nil a
  | cons x σ ih =>
    cases a with
    | zero => exact absurd h (by simp)
    | succ a => exact ih a (Nat.le_of_succ_le_succ h)

theorem lt_length_of_lookup_ne (σ : Store) (a : Nat)
    (h : lookup σ a ≠ JSVal.vNoneSym) : a < σ.length := by
  by_contra hge
  exact h (lookup_default_of_le σ a (Nat.le_of_not_lt hge))

theorem isNone_eq_false (σ : Store) (a : Nat) (v : JSVal)
    (hv : lookup σ a = v) (hne : v ≠ JSVal.vNoneSym) : isNone σ a = false := by
  simp [isNone, hv, hne]

theorem isNone_after_drain (σ : Store) (a : Nat) (v : JSVal)
    (hv : lookup σ a = v) (hne : v ≠ JSVal.vNoneSym) :
    isNone (update σ a .vNoneSym) a = true := by
  have hlt : a < σ.length := lt_length_of_lookup_ne σ a (by simp [hv, hne])
  simp [isNone, lookup_set_self σ a _ hlt]

end COption

/-- Draft B optional container (option/option.ts): an immutable class whose
`private readonly variant` field is either the data class `Some<T>` (holding
a readonly `value`) or the shared data class `None`.  The class and its
variant field are collapsed into one inductive; no method of the class
assigns to any field, so methods are plain functions of the value. -/
inductive VOption (T : Type) : Type where
  | Some (value : T)
  | None
  deriving DecidableEq

namespace VOption

variable {T R : Type}

/-- `get isSome(): boolean { return this.variant instanceof Some; }` -/
def isSome : VOption T → Bool
  | .Some _ => true
  | .None => false

/-- `get isNone(): boolean { return this.variant instanceof None; }` -/
def isNone : VOption T → Bool
  | .Some _ => false
  | .None => true

/-- `unwrap()`:
`if (this.isNone) throw new TypeError("Trying to get a value from None");
 return (this.variant as Some<T>).value;` -/
def unwrap : VOption T → Except JSError T
  | .Some v => .ok v
  | .None => .error (.typeError "Trying to get a value from None")

/-- `unwrapOr(defaultValue)`:
`if (this.isNone) return defaultValue; return (this.variant as Some<T>).value;` -/
def unwrapOr : VOption T → T → T
  | .Some v, _ => v
  | .None, d => d

/-- `static from(value)` of option/option.ts (the draft that claims cite as
`Option.from`): `if (isNullable(value)) return Option.None();
return Option.Some(value as NonNullable<T>);` where `isNullable(value)` is
`value == null` (true exactly on `null` and `undefined`).  A possibly
nullable value is embedded as a Lean `Option T`: `Option.none` stands for
the nullable sentinels, `Option.some v` for every other value. -/
def fromNullable : Option T → VOption T
  | Option.none => .None
  | Option.some v => .Some v

/-- `match({ Some, None })`:
`return this.isNone ? None() : Some(this.unwrap());`
Handlers are pure (spec section 4.1), so a handler invocation is a plain
application; the guarded `unwrap` call keeps the `Except` shape. -/
def matchWith (o : VOption T) (s : T → R) (n : Unit → R) : Except JSError R :=
  if o.isNone then .ok (n ()) else o.unwrap.map s

end VOption

/-- Draft B result container (result/result.ts): an immutable class whose
`private readonly variant` field is either the data class `Ok<O>` or
`Err<E>`, each holding a readonly `value`.  No method assigns to any field,
so methods are plain functions of the value. -/
inductive VResult (O E : Type) : Type where
  | Ok (value : O)
  | Err (value : E)
  deriving DecidableEq

namespace VResult

variable {O E R : Type}

/-- `get isOk(): boolean { return this.variant instanceof Ok; }` -/
def isOk : VResult O E → Bool
  | .Ok _ => true
  | .Err _ => false

/-- `get isErr(): boolean { return this.variant instanceof Err; }` -/
def isErr : VResult O E → Bool
  | .Ok _ => false
  | .Err _ => true

/-- `unwrap()`:
`if (this.isOk) return this.variant.value as O;
 throw new TypeError("Trying to get a success value for Err");` -/
def unwrap : VResult O E → Except JSError O
  | .Ok v => .ok v
  | .Err _ => .error (.typeError "Trying to get a success value for Err")

/-- `unwrapErr()`:
`if (this.isErr) return this.variant.value as E;
 throw new TypeError("Trying to get an error value for Ok");` -/
def unwrapErr : VResult O E → Except JSError E
  | .Ok _ => .error (.typeError "Trying to get an error value for Ok")
  | .Err e => .ok e

/-- `get ok(): Option<O> { return this.isOk ? Some(this.unwrap()) : None; }`
`Some` and `None` come from option/mod.ts (`Some = Option.Some`,
`None = Option.None()`); the guard makes the `unwrap` call infallible, the
error branch below is unreachable. -/
def ok (r : VResult O E) : VOption O :=
  if r.isOk then
    match r.unwrap with
    | .ok v => VOption.Some v
    | .error _ => VOption.None
  else VOption.None

/-- `get error(): Option<E> { return this.isErr ? Some(this.unwrapErr()) : None; }` -/
def error (r : VResult O E) : VOption E :=
  if r.isErr then
    match r.unwrapErr with
    | .ok e => VOption.Some e
    | .error _ => VOption.None
  else VOption.None

/-- `match({ Ok, Err })`:
`return this.isOk ? Ok(this.unwrap()) : Err(this.unwrapErr());` -/
def matchWith (r : VResult O E) (okH : O → R) (errH : E → R) :
    Except JSError R :=
  if r.isOk then r.unwrap.map okH else r.unwrapErr.map errH

end VResult

open COption COption.JSVal

/-- C1: on the consuming optional container, the first consuming read
(`unwrap`) of a Present instance returns the contained value and drains the
instance, so a second consuming read on the same instance raises the
ReferenceError; on an Absent instance (originally Absent or drained by a
prior consuming read) the consuming read always raises that error. -/
theorem C1_unwrap_one_shot :
    (∀ (σ : Store) (a : Nat) (v : JSVal),
      lookup σ a = v → v ≠ vNoneSym →
        unwrap σ a = Except.ok (v, update σ a vNoneSym) ∧
        unwrap (update σ a vNoneSym) a =
          Except.error (JSError.referenceError "Unwrap called on a None value")) ∧
    (∀ (σ : Store) (a : Nat),
      lookup σ a = vNoneSym →
        unwrap σ a =
          Except.error (JSError.referenceError "Unwrap called on a None value")) := by
  constructor
  · intro σ a v hv hne
    have h1 : isNone σ a = false := isNone_eq_false σ a v hv hne
    have h2 : isNone (update σ a vNoneSym) a = true := isNone_after_drain σ a v hv hne
    exact ⟨by simp [unwrap, h1, hv], by simp [unwrap, h2]⟩
  · intro σ a h
    simp [unwrap, isNone, h]

/-- C1 witness: a Present instance holding 7 unwraps to 7 and is drained;
an Absent instance raises the ReferenceError. -/
theorem C1_unwrap_one_shot_witness :
    unwrap [vNum 7] 0 = Except.ok (vNum 7, [vNoneSym]) ∧
    unwrap [vNoneSym] 0 =
      Except.error (JSError.referenceError "Unwrap called on a None value") :=
  ⟨(C1_unwrap_one_shot.1 [vNum 7] 0 (vNum 7) rfl (by decide)).1,
   C1_unwrap_one_shot.2 [vNoneSym] 0 rfl⟩

/-- C2 evaluation at the failing input: the `Some` factory of the consuming
draft puts the falsy but non-nullable values 0, the empty string and
`false` into an ABSENT container (its `!value` guard), although the factory
documentation and the specification make only `null` and `undefined`
absent; the other cited factory, `Option.from` of option/option.ts, wraps 0
into a Present container as specified. -/
theorem C2_wrap_falsy_evaluation :
    isSome (COption.Some [] (vNum 0)).2 (COption.Some [] (vNum 0)).1 = false ∧
    isSome (COption.Some [] (vStr "")).2 (COption.Some [] (vStr "")).1 = false ∧
    isSome (COption.Some [] (vBool false)).2 (COption.Some [] (vBool false)).1 = false ∧
    VOption.fromNullable (Option.some (vNum 0)) = VOption.Some (vNum 0) ∧
    VOption.isSome (VOption.fromNullable (Option.some (vNum 0))) = true := by
  decide

/-- C3 counterexample: the claim says `unwrapOr` takes the peeking path and
leaves a Present container Present.  On the code, wrapping 1 and calling
`unwrapOr 2` returns 1 but drains the container: `isSome` is false
afterwards. -/
theorem C3_claim_counterexample :
    COption.Some [] (vNum 1) = (0, [vNum 1]) ∧
    unwrapOr [vNum 1] 0 (vNum 2) = (vNum 1, [vNoneSym]) ∧
    isSome [vNoneSym] 0 = false := by
  decide

/-- C3 amended: `unwrapOr` returns the payload of a Present container via
the CONSUMING path (it calls the `unwrap` getter), so the container is
Absent afterwards; on an Absent container it returns the default and leaves
the store unchanged. -/
theorem C3_unwrapOr_consumes :
    (∀ (σ : Store) (a : Nat) (v d : JSVal),
      lookup σ a = v → v ≠ vNoneSym →
        unwrapOr σ a d = (v, update σ a vNoneSym) ∧
        isNone (update σ a vNoneSym) a = true) ∧
    (∀ (σ : Store) (a : Nat) (d : JSVal),
      lookup σ a = vNoneSym →
        unwrapOr σ a d = (d, σ)) := by
  constructor
  · intro σ a v d hv hne
    have h1 : isSome σ a = true := by simp [isSome, hv, hne]
    exact ⟨by simp [unwrapOr, h1, hv], isNone_after_drain σ a v hv hne⟩
  · intro σ a d h
    simp [unwrapOr, isSome, h]

/-- C3 witness: the amended statement at the container wrapping 1 with
default 2, and at an Absent container with default 2. -/
theorem C3_unwrapOr_consumes_witness :
    (unwrapOr [vNum 1] 0 (vNum 2) = (vNum 1, [vNoneSym]) ∧
     isNone [vNoneSym] 0 = true) ∧
    unwrapOr [vNoneSym] 0 (vNum 2) = (vNum 2, [vNoneSym]) :=
  ⟨(C3_unwrapOr_consumes.1 [vNum 1] 0 (vNum 1) (vNum 2) rfl (by decide)),
   C3_unwrapOr_consumes.2 [vNoneSym] 0 (vNum 2) rfl⟩

/-- C4 counterexample: the Result container has NO consuming lifecycle.
The class result/result.ts stores its variant in a `private readonly`
field and no method performs an assignment, so the instance observed by a
second read is the unchanged value; on `Ok 10` the read of the success
value succeeds and does not raise the wrong-channel error, hence the
second read on the same instance succeeds as well, contradicting the
claimed drained-state transition. -/
theorem C4_claim_counterexample :
    VResult.unwrap (VResult.Ok 10 : VResult Nat String) = Except.ok 10 ∧
    VResult.unwrap (VResult.Ok 10 : VResult Nat String) ≠
      Except.error (JSError.typeError "Trying to get a success value for Err") ∧
    VResult.isOk (VResult.Ok 10 : VResult Nat String) = true :=
  ⟨rfl, fun h => Except.noConfusion h, rfl⟩

/-- C4 amended: the consuming read of the success value fails (with a
TypeError) if the Result is Err; on an Ok Result the read returns the value
WITHOUT any state transition — the instance stays Ok and the read is
repeatable, because the Result class is immutable. -/
theorem C4_result_unwrap_not_consuming (O E : Type) (v : O) (e : E) :
    VResult.unwrap (VResult.Ok v : VResult O E) = Except.ok v ∧
    VResult.isOk (VResult.Ok v : VResult O E) = true ∧
    VResult.unwrap (VResult.Err e : VResult O E) =
      Except.error (JSError.typeError "Trying to get a success value for Err") ∧
    VResult.unwrapErr (VResult.Ok v : VResult O E) =
      Except.error (JSError.typeError "Trying to get an error value for Ok") :=
  ⟨rfl, rfl, rfl, rfl⟩

/-- C5: the Ok-channel projection of `Ok x` is a Present option containing
x and its Err-channel projection is Absent; symmetrically for `Err e`. -/
theorem C5_projections (O E : Type) (x : O) (e : E) :
    VResult.ok (VResult.Ok x : VResult O E) = VOption.Some x ∧
    VResult.error (VResult.Ok x : VResult O E) = VOption.None ∧
    VResult.error (VResult.Err e : VResult O E) = VOption.Some e ∧
    VResult.ok (VResult.Err e : VResult O E) = VOption.None ∧
    VOption.isSome (VResult.ok (VResult.Ok x : VResult O E)) = true ∧
    VOption.unwrap (VResult.ok (VResult.Ok x : VResult O E)) = Except.ok x :=
  ⟨rfl, rfl, rfl, rfl, rfl, rfl⟩

/-- C6: mapping over a freshly built Absent container returns the SAME
instance (same address) with the store unchanged, the container is still
Absent, and the mapped function is never invoked (the result does not
depend on it). -/
theorem C6_map_preserves_absence :
    ∀ (σ₀ : Store) (f g : JSVal → JSVal),
      isNone (COption.None σ₀).2 (COption.None σ₀).1 = true ∧
      map (COption.None σ₀).2 (COption.None σ₀).1 f =
        ((COption.None σ₀).1, (COption.None σ₀).2) ∧
      map (COption.None σ₀).2 (COption.None σ₀).1 f =
        map (COption.None σ₀).2 (COption.None σ₀).1 g := by
  intro σ₀ f g
  have hNone : COption.None σ₀ = (σ₀.length, σ₀ ++ [vNoneSym]) := by
    simp [COption.None, mkOption, alloc]
  have hlook := lookup_append_self σ₀ vNoneSym
  have hSome : isSome (σ₀ ++ [vNoneSym]) σ₀.length = false := by
    simp [isSome, hlook]
  rw [hNone]
  exact ⟨by simp [isNone, hlook], by simp [map, hSome], by simp [map, hSome]⟩

/-- C7 evaluation at the failing input: on the Present container wrapping
3, mapping with a function returning the falsy value 0 yields a fresh
container that is ABSENT (the `Some` factory absorbs falsy results), not a
container holding 0 as the claim states; the frame part of the claim does
hold — the original instance is untouched, still Present with payload 3. -/
theorem C7_map_falsy_evaluation :
    COption.Some [] (vNum 3) = (0, [vNum 3]) ∧
    map [vNum 3] 0 (fun _ => vNum 0) = (1, [vNum 3, vNoneSym]) ∧
    isNone [vNum 3, vNoneSym] 1 = true ∧
    isSome [vNum 3, vNoneSym] 0 = true ∧
    peek [vNum 3, vNoneSym] 0 = vNum 3 := by
  decide

/-- C8: flattening the triple wrap of 5 reaches the innermost container,
which is Present and whose consuming read returns 5; and flattening any
container whose payload is not itself a container returns the very same
instance. -/
theorem C8_flatten_collapses :
    (COption.Some [] (vNum 5) = (0, [vNum 5]) ∧
     COption.Some [vNum 5] (vOpt 0) = (1, [vNum 5, vOpt 0]) ∧
     COption.Some [vNum 5, vOpt 0] (vOpt 1) = (2, [vNum 5, vOpt 0, vOpt 1]) ∧
     flatten [vNum 5, vOpt 0, vOpt 1] 2 = 0 ∧
     isSome [vNum 5, vOpt 0, vOpt 1] 0 = true ∧
     unwrap [vNum 5, vOpt 0, vOpt 1] 0 =
       Except.ok (vNum 5, [vNoneSym, vOpt 0, vOpt 1])) ∧
    (∀ (σ : Store) (a : Nat),
      valueAddr (lookup σ a) = none → flatten σ a = a) := by
  constructor
  · exact ⟨rfl, rfl, rfl, rfl, rfl, rfl⟩
  · intro σ a h
    have hAux : ∀ fuel, flattenAux σ fuel a = a := by
      intro fuel
      cases fuel with
      | zero => rfl
      | succ n => simp [flattenAux, h]
    exact hAux σ.length

/-- C8 witness: flattening a non-nested container wrapping 5 returns the
same instance. -/
theorem C8_flatten_collapses_witness :
    flatten [vNum 5] 0 = 0 :=
  C8_flatten_collapses.2 [vNum 5] 0 rfl

/-- C9: `match` is total and exclusive on both containers — on a Some /
Ok / None / Err value it returns exactly the value of the handler selected
by the tag, and the result does not depend on the other handler (the other
handler is never invoked). -/
theorem C9_match_totality :
    (∀ (T R : Type) (v : T) (s : T → R) (n n2 : Unit → R),
      VOption.matchWith (VOption.Some v) s n = Except.ok (s v) ∧
      VOption.matchWith (VOption.Some v) s n =
        VOption.matchWith (VOption.Some v) s n2) ∧
    (∀ (T R : Type) (s s2 : T → R) (n : Unit → R),
      VOption.matchWith (VOption.None : VOption T) s n = Except.ok (n ()) ∧
      VOption.matchWith (VOption.None : VOption T) s n =
        VOption.matchWith (VOption.None : VOption T) s2 n) ∧
    (∀ (O E R : Type) (x : O) (okH : O → R) (e1 e2 : E → R),
      VResult.matchWith (VResult.Ok x : VResult O E) okH e1 =
        Except.ok (okH x) ∧
      VResult.matchWith (VResult.Ok x : VResult O E) okH e1 =
        VResult.matchWith (VResult.Ok x : VResult O E) okH e2) ∧
    (∀ (O E R : Type) (e : E) (o1 o2 : O → R) (errH : E → R),
      VResult.matchWith (VResult.Err e : VResult O E) o1 errH =
        Except.ok (errH e) ∧
      VResult.matchWith (VResult.Err e : VResult O E) o1 errH =
        VResult.matchWith (VResult.Err e : VResult O E) o2 errH) :=
  ⟨fun _ _ _ _ _ _ => ⟨rfl, rfl⟩,
   fun _ _ _ _ _ => ⟨rfl, rfl⟩,
   fun _ _ _ _ _ _ _ => ⟨rfl, rfl⟩,
   fun _ _ _ _ _ _ _ => ⟨rfl, rfl⟩⟩

/-- C10: on the consuming optional container, a successful
`expect(message)` is itself a consuming read — on a Present instance it
returns the payload and drains the instance, so any subsequent `unwrap` or
`expect` on the same instance throws; on an Absent instance `expect`
throws a ReferenceError carrying exactly the caller-supplied message. -/
theorem C10_expect_consuming :
    (∀ (σ : Store) (a : Nat) (v : JSVal) (m m2 : String),
      lookup σ a = v → v ≠ vNoneSym →
        COption.expect σ a m = Except.ok (v, update σ a vNoneSym) ∧
        unwrap (update σ a vNoneSym) a =
          Except.error (JSError.referenceError "Unwrap called on a None value") ∧
        COption.expect (update σ a vNoneSym) a m2 =
          Except.error (JSError.referenceError m2)) ∧
    (∀ (σ : Store) (a : Nat) (m : String),
      lookup σ a = vNoneSym →
        COption.expect σ a m = Except.error (JSError.referenceError m)) := by
  constructor
  · intro σ a v m m2 hv hne
    have h1 : isNone σ a = false := isNone_eq_false σ a v hv hne
    have h2 : isNone (update σ a vNoneSym) a = true := isNone_after_drain σ a v hv hne
    exact ⟨by simp [COption.expect, unwrap, h1, hv],
           by simp [unwrap, h2],
           by simp [COption.expect, h2]⟩
  · intro σ a m h
    simp [COption.expect, isNone, h]

/-- C10 witness: a Present instance holding 7 is consumed by
`expect "boom"`, after which both reads throw; an Absent instance throws
the supplied message. -/
theorem C10_expect_consuming_witness :
    (COption.expect [vNum 7] 0 "boom" = Except.ok (vNum 7, [vNoneSym]) ∧
     unwrap [vNoneSym] 0 =
       Except.error (JSError.referenceError "Unwrap called on a None value") ∧
     COption.expect [vNoneSym] 0 "again" =
       Except.error (JSError.referenceError "again")) ∧
    COption.expect [vNoneSym] 0 "empty" =
      Except.error (JSError.referenceError "empty") :=
  ⟨C10_expect_consuming.1 [vNum 7] 0 (vNum 7) "boom" "again" rfl (by decide),
   C10_expect_consuming.2 [vNoneSym] 0 "empty" rfl⟩

end TsOptionals
